import Mathlib

/-!
Shallow embedding of the FILS Design quiz bot core (`src/bot.py`):
the recommendation-scoring engine (`compute_recommendation`) and the
conversation state machine formed by the handlers registered in
`build_application` (`cmd_start`, `on_start_quiz`, `handle_q1` … `handle_q4`,
`on_contact`, `on_phone_text`), with the per-user `context.user_data`
dictionary modelled as an explicit `Session` record and the calls to the
external collaborators (outbound Telegram messages, `db.py` writes, the
forward-to-manager handoff) modelled as an emitted list of `Effect`s.
-/

namespace Fils

/-- Score accumulator for the four catalog items, in declaration order
CLOUD, GOCCI, FLOUS, JUNGLE (the `score` dict initialised at the top of
`compute_recommendation`, bot.py line 297). Python integers, so `Int`. -/
structure Score where
  cloud : Int
  gocci : Int
  flous : Int
  jungle : Int
deriving Repr, DecidableEq

/-- All-zero initial score dict (bot.py line 297). -/
def initScore : Score := ⟨0, 0, 0, 0⟩

/-- Lookup in the dict comprehension `amap` built from `answers`
(bot.py line 298): a Python dict comprehension keeps the LAST binding of a
repeated key, so lookup returns the value of the last pair whose key is `q`,
or `none` when no pair has key `q`. -/
def dictGet (q : String) : List (String × Nat) → Option Nat
  | [] => none
  | (k, v) :: rest =>
    match dictGet q rest with
    | some w => some w
    | none => if k = q then some v else none

/-- The `# Q1` if/elif block of `compute_recommendation` (bot.py 300-310). -/
def applyQ1 (o : Option Nat) (s : Score) : Score :=
  if o = some 1 then { s with cloud := s.cloud + 1, jungle := s.jungle + 1 }
  else if o = some 2 then { s with gocci := s.gocci + 1 }
  else if o = some 3 then { s with flous := s.flous + 2 }
  else if o = some 4 then { s with jungle := s.jungle + 2 }
  else s

/-- The `# Q2` if/elif block of `compute_recommendation` (bot.py 312-326). -/
def applyQ2 (o : Option Nat) (s : Score) : Score :=
  if o = some 1 then { s with cloud := s.cloud + 2, jungle := s.jungle + 1 }
  else if o = some 2 then { s with gocci := s.gocci + 2, flous := s.flous + 1 }
  else if o = some 3 then { s with flous := s.flous + 2, cloud := s.cloud + 1 }
  else if o = some 4 then { s with gocci := s.gocci + 1, jungle := s.jungle + 1, cloud := s.cloud + 1 }
  else s

/-- The `# Q3` if/elif block of `compute_recommendation` (bot.py 328-340). -/
def applyQ3 (o : Option Nat) (s : Score) : Score :=
  if o = some 1 then { s with gocci := s.gocci + 2, cloud := s.cloud + 1 }
  else if o = some 2 then { s with flous := s.flous + 2 }
  else if o = some 3 then { s with cloud := s.cloud + 2, flous := s.flous + 1 }
  else if o = some 4 then { s with jungle := s.jungle + 2, cloud := s.cloud + 1 }
  else s

/-- The `# Q4` if/elif block of `compute_recommendation` (bot.py 342-354). -/
def applyQ4 (o : Option Nat) (s : Score) : Score :=
  if o = some 1 then { s with cloud := s.cloud + 3 }
  else if o = some 2 then { s with gocci := s.gocci + 2, flous := s.flous + 1 }
  else if o = some 3 then { s with gocci := s.gocci + 2, cloud := s.cloud + 1 }
  else if o = some 4 then { s with flous := s.flous + 2, cloud := s.cloud + 1 }
  else s

/-- The accumulated scores produced by `compute_recommendation` for a given
`answers` list: the four question blocks applied in source order, each keyed
by `amap.get("Qi")` (last occurrence wins, dict semantics). -/
def finalScore (answers : List (String × Nat)) : Score :=
  applyQ4 (dictGet "Q4" answers)
    (applyQ3 (dictGet "Q3" answers)
      (applyQ2 (dictGet "Q2" answers)
        (applyQ1 (dictGet "Q1" answers) initScore)))

/-- Score of catalog item `m` under a `Score` record: the dict accesses
inside the `max` key lambda, bot.py line 358. -/
def scoreOf (s : Score) (m : String) : Int :=
  if m = "CLOUD" then s.cloud
  else if m = "GOCCI" then s.gocci
  else if m = "FLOUS" then s.flous
  else if m = "JUNGLE" then s.jungle
  else 0

/-- The fixed tie-break order list `order` of bot.py line 357. -/
def catalogOrder : List String := ["CLOUD", "GOCCI", "FLOUS", "JUNGLE"]

/-- Python strict tuple comparison `a > b` on pairs of ints: lexicographic. -/
def keyGt (a b : Int × Int) : Prop :=
  b.1 < a.1 ∨ (a.1 = b.1 ∧ b.2 < a.2)

instance (a b : Int × Int) : Decidable (keyGt a b) := by
  unfold keyGt; infer_instance

/-- Python `max(xs, key=key)`: scans left to right, keeps the first element
and replaces the current best exactly when a later element's key is strictly
greater. Python raises on an empty sequence; `order` is never empty here, so
the `[]` case is an arbitrary default. -/
def pyMax (key : String → Int × Int) : List String → String
  | [] => ""
  | x :: xs => xs.foldl (fun best y => if keyGt (key y) (key best) then y else best) x

/-- Translation of `compute_recommendation` (bot.py 295-359): accumulate the
scores from the dict of answers, then take the Python max of `order` under
the key `(score of m, negated declaration index of m)`. -/
def compute_recommendation (answers : List (String × Nat)) : String :=
  pyMax (fun m => (scoreOf (finalScore answers) m, -((catalogOrder.indexOf m : Nat) : Int)))
    catalogOrder

/-- Modelled from the spec (§4.2 Recommendation Engine), for comparison with
`compute_recommendation` in claim C2 only: "initialize a score accumulator at
zero for every catalog item. For each `(question-id, option-index)` pair in
`answers`, look up the corresponding row in the Scoring Rule Table and add
each listed weight delta" — i.e. a fold over the SEQUENCE of pairs, every
pair contributing, duplicates included. Selection is the same tie-break rule. -/
def specPairDelta (p : String × Nat) (s : Score) : Score :=
  if p.1 = "Q1" then applyQ1 (some p.2) s
  else if p.1 = "Q2" then applyQ2 (some p.2) s
  else if p.1 = "Q3" then applyQ3 (some p.2) s
  else if p.1 = "Q4" then applyQ4 (some p.2) s
  else s

/-- Modelled from the spec (§4.2): score of the whole answers sequence,
folding `specPairDelta` over every pair in order. -/
def specScore (answers : List (String × Nat)) : Score :=
  answers.foldl (fun s p => specPairDelta p s) initScore

/-- Modelled from the spec (§4.2): the recommendation computed by per-pair
summation, with the same (score desc, declaration index asc) selection. -/
def recommend_specModel (answers : List (String × Nat)) : String :=
  pyMax (fun m => (scoreOf (specScore answers) m, -((catalogOrder.indexOf m : Nat) : Int)))
    catalogOrder

/-! ## The conversation state machine

Per-user `context.user_data`, with the zero values used by the source's
defaulted reads: `get(UD_ANSWERS, [])`, `get(UD_RESULT, ...)` absent,
`get(UD_AWAITING_CONTACT, False)`, `get(UD_CONTACT_RECEIVED, False)`. -/

/-- The per-user session: the four `user_data` keys of bot.py lines 42-45. -/
structure Session where
  answers : List (String × Nat)
  result : Option String
  awaiting_contact : Bool
  contact_received : Bool
deriving Repr, DecidableEq

/-- A session before any interaction (or right after `user_data.clear()`):
every key absent, so every defaulted read yields its zero value. -/
def initialSession : Session := ⟨[], none, false, false⟩

/-- One inbound Telegram update, as discriminated by the handlers registered
in `build_application` (bot.py 530-552):
`start` is the `/start` command; `startQuiz` a callback query with data
`start_quiz`; `q n choice` a callback query whose data is the letter q, the
question number, an underscore and the choice digit
(the patterns `^qN_([1-4])$` only ever match `n` and `choice` in 1..4 —
any other callback data matches no handler and is dropped by the dispatcher);
`contact` a contact-share message; `text` a non-command text message. -/
inductive Event where
  | start
  | startQuiz
  | q (n : Nat) (choice : Nat)
  | contact (phone : String)
  | text (t : String)
deriving Repr, DecidableEq

/-- The observable calls a handler makes to the external collaborators:
outbound user messages, `db.py` writes, and the `forward_to_manager`
lead handoff. `handlerError` records a handler aborting on an uncaught
exception (the dispatcher swallows it; state mutations already made stand). -/
inductive Effect where
  | sendGreeting
  | sendQuestion (n : Nat)
  | sendAck
  | sendResult (model : String)
  | sendContactAck
  | dbUpsertUser
  | dbTouch
  | dbAddSubmission (model : String) (answers : List (String × Nat))
  | dbUpdatePhone (phone : String)
  | managerHandoff (phone : String) (answers : List (String × Nat)) (result : Option String)
  | handlerError
deriving Repr, DecidableEq

/-- Python `text.strip()` (on_phone_text, bot.py line 457): drop leading and
trailing whitespace. (Python strips the Unicode whitespace class; Lean's
`Char.isWhitespace` covers the whitespace characters this flow encounters.) -/
def pyStrip (t : String) : String :=
  ⟨((t.data.dropWhile Char.isWhitespace).reverse.dropWhile Char.isWhitespace).reverse⟩

/-- Number of digit characters in a text (on_phone_text, bot.py line 458).
`Char.isDigit` is true exactly on the ASCII decimal digits; Python's
`str.isdigit` agrees on every character class this flow sees (ASCII digits,
Cyrillic and Latin letters, punctuation, whitespace). -/
def digitCount (t : String) : Nat := (t.data.filter Char.isDigit).length

/-- One dispatch of an inbound update against the handlers of
`build_application`, returning the updated session and the ordered list of
collaborator calls. Faithful to the source, in particular:

* `cmd_start` (155-181): `user_data.clear()`, greeting, `upsert_user`,
  `touch_user_active`.
* `on_start_quiz` (184-195): sets `user_data[UD_ANSWERS] = []` and shows Q1;
  touches no other key.
* `handle_q1`/`handle_q2`/`handle_q3` (205-255): UNCONDITIONALLY append
  `("Qn", choice)` and show the next question — there is no check that the
  session is currently at question n.
* `handle_q4` (265-292): appends, computes and stores the recommendation,
  saves the submission, sends the result — and then calls
  `send_promo_code`, whose first statement evaluates the module variable
  `MESSAGE_DELAY_SECONDS` (line 380), which is never defined in bot.py
  (only `QUESTION_DELAY_SECONDS` and `RESULT_DELAY_SECONDS` exist, lines
  31-32). That raises `NameError`; the dispatcher logs and swallows it, so
  the promo message and `send_contact_request` never run and
  `UD_AWAITING_CONTACT` / `UD_CONTACT_RECEIVED` are left untouched
  (`handlerError` marks the abort).
* `on_contact` (414-449): guarded by `awaiting_contact`; accepts, acknowledges,
  forwards to the manager, and saves the phone via `update_user_phone`.
* `on_phone_text` (452-483): guarded by `awaiting_contact` and the ≥7-digit
  rule on the stripped text; accepts, acknowledges, forwards to the manager —
  and does NOT call `update_user_phone`. -/
def step (s : Session) (e : Event) : Session × List Effect :=
  match e with
  | .start =>
      (initialSession, [.sendGreeting, .dbUpsertUser, .dbTouch])
  | .startQuiz =>
      ({ s with answers := [] }, [.sendQuestion 1])
  | .q n choice =>
      if 1 ≤ choice ∧ choice ≤ 4 then
        if n = 1 then
          ({ s with answers := s.answers ++ [("Q1", choice)] }, [.sendQuestion 2])
        else if n = 2 then
          ({ s with answers := s.answers ++ [("Q2", choice)] }, [.sendQuestion 3])
        else if n = 3 then
          ({ s with answers := s.answers ++ [("Q3", choice)] }, [.sendQuestion 4])
        else if n = 4 then
          ({ s with answers := s.answers ++ [("Q4", choice)],
                    result := some (compute_recommendation (s.answers ++ [("Q4", choice)])) },
           [.sendAck,
            .dbAddSubmission (compute_recommendation (s.answers ++ [("Q4", choice)]))
              (s.answers ++ [("Q4", choice)]),
            .dbTouch,
            .sendResult (compute_recommendation (s.answers ++ [("Q4", choice)])),
            .handlerError])
        else (s, [])
      else (s, [])
  | .contact phone =>
      if s.awaiting_contact then
        ({ s with contact_received := true, awaiting_contact := false },
         [.sendContactAck, .managerHandoff phone s.answers s.result,
          .dbUpdatePhone phone, .dbTouch])
      else (s, [])
  | .text t =>
      if s.awaiting_contact then
        if 7 ≤ digitCount (pyStrip t) then
          ({ s with contact_received := true, awaiting_contact := false },
           [.sendContactAck, .managerHandoff (pyStrip t) s.answers s.result])
        else (s, [])
      else (s, [])

/-- Process a whole sequence of inbound events, collecting every
collaborator call in order. -/
def run (s : Session) : List Event → Session × List Effect
  | [] => (s, [])
  | e :: es =>
      ((run (step s e).1 es).1, (step s e).2 ++ (run (step s e).1 es).2)

/-- Is this effect the lead-record handoff (`forward_to_manager`)? -/
def Effect.isHandoff : Effect → Bool
  | .managerHandoff _ _ _ => true
  | _ => false

/-- Is this effect the `update_user_phone` persistence call? -/
def Effect.isUpdatePhone : Effect → Bool
  | .dbUpdatePhone _ => true
  | _ => false

/-- Number of lead-record handoffs in a list of collaborator calls. -/
def handoffCount (l : List Effect) : Nat := (l.filter Effect.isHandoff).length

/-! ## Helper lemmas -/

theorem scoreOf_cloud (s : Score) : scoreOf s "CLOUD" = s.cloud := rfl

theorem scoreOf_gocci (s : Score) : scoreOf s "GOCCI" = s.gocci := rfl

theorem scoreOf_flous (s : Score) : scoreOf s "FLOUS" = s.flous := rfl

theorem scoreOf_jungle (s : Score) : scoreOf s "JUNGLE" = s.jungle := rfl

theorem indexOf_cloud : catalogOrder.indexOf "CLOUD" = 0 := rfl

theorem indexOf_gocci : catalogOrder.indexOf "GOCCI" = 1 := rfl

theorem indexOf_flous : catalogOrder.indexOf "FLOUS" = 2 := rfl

theorem indexOf_jungle : catalogOrder.indexOf "JUNGLE" = 3 := rfl

theorem applyQ1_none (s : Score) : applyQ1 none s = s := by simp [applyQ1]

theorem applyQ2_none (s : Score) : applyQ2 none s = s := by simp [applyQ2]

theorem applyQ3_none (s : Score) : applyQ3 none s = s := by simp [applyQ3]

theorem applyQ4_none (s : Score) : applyQ4 none s = s := by simp [applyQ4]

theorem applyQ_comm12 (a b : Option Nat) (s : Score) :
    applyQ1 a (applyQ2 b s) = applyQ2 b (applyQ1 a s) := by
  cases s; simp only [applyQ1, applyQ2]; split_ifs <;> simp [Score.mk.injEq] <;> omega

theorem applyQ_comm13 (a b : Option Nat) (s : Score) :
    applyQ1 a (applyQ3 b s) = applyQ3 b (applyQ1 a s) := by
  cases s; simp only [applyQ1, applyQ3]; split_ifs <;> simp [Score.mk.injEq] <;> omega

theorem applyQ_comm14 (a b : Option Nat) (s : Score) :
    applyQ1 a (applyQ4 b s) = applyQ4 b (applyQ1 a s) := by
  cases s; simp only [applyQ1, applyQ4]; split_ifs <;> simp [Score.mk.injEq] <;> omega

theorem applyQ_comm23 (a b : Option Nat) (s : Score) :
    applyQ2 a (applyQ3 b s) = applyQ3 b (applyQ2 a s) := by
  cases s; simp only [applyQ2, applyQ3]; split_ifs <;> simp [Score.mk.injEq] <;> omega

theorem applyQ_comm24 (a b : Option Nat) (s : Score) :
    applyQ2 a (applyQ4 b s) = applyQ4 b (applyQ2 a s) := by
  cases s; simp only [applyQ2, applyQ4]; split_ifs <;> simp [Score.mk.injEq] <;> omega

theorem applyQ_comm34 (a b : Option Nat) (s : Score) :
    applyQ3 a (applyQ4 b s) = applyQ4 b (applyQ3 a s) := by
  cases s; simp only [applyQ3, applyQ4]; split_ifs <;> simp [Score.mk.injEq] <;> omega

theorem dictGet_cons_ne (q k : String) (v : Nat) (rest : List (String × Nat)) (hkq : k ≠ q) :
    dictGet q ((k, v) :: rest) = dictGet q rest := by
  simp only [dictGet]
  cases dictGet q rest <;> simp [hkq]

theorem dictGet_eq_none (q : String) (rest : List (String × Nat))
    (h : q ∉ rest.map Prod.fst) : dictGet q rest = none := by
  induction rest with
  | nil => rfl
  | cons p rest ih =>
      obtain ⟨k, v⟩ := p
      simp only [List.map_cons, List.mem_cons, not_or] at h
      rw [dictGet_cons_ne q k v rest (fun hh => h.1 hh.symm)]
      exact ih h.2

theorem dictGet_cons_eq (q : String) (v : Nat) (rest : List (String × Nat))
    (h : dictGet q rest = none) : dictGet q ((q, v) :: rest) = some v := by
  simp [dictGet, h]

/-- On answer lists whose question-ids are pairwise distinct, the spec's
per-pair fold agrees with the source's four keyed lookups: with no repeated
key, the last occurrence IS the only occurrence, and the per-question score
blocks commute, so applying them in pair order equals applying them in
fixed source order. -/
theorem specFold_eq (answers : List (String × Nat)) (s : Score)
    (h : (answers.map Prod.fst).Nodup) :
    answers.foldl (fun t p => specPairDelta p t) s =
      applyQ4 (dictGet "Q4" answers)
        (applyQ3 (dictGet "Q3" answers)
          (applyQ2 (dictGet "Q2" answers)
            (applyQ1 (dictGet "Q1" answers) s))) := by
  induction answers generalizing s with
  | nil => simp [dictGet, applyQ1_none, applyQ2_none, applyQ3_none, applyQ4_none]
  | cons p rest ih =>
      obtain ⟨k, v⟩ := p
      simp only [List.map_cons, List.nodup_cons] at h
      obtain ⟨hk, hrest⟩ := h
      rw [List.foldl_cons, ih _ hrest]
      by_cases h1 : k = "Q1"
      · subst h1
        rw [dictGet_cons_eq _ v rest (dictGet_eq_none _ rest hk),
          dictGet_cons_ne _ _ _ _ (by decide), dictGet_cons_ne _ _ _ _ (by decide),
          dictGet_cons_ne _ _ _ _ (by decide),
          dictGet_eq_none _ rest hk, applyQ1_none]
        have hp : specPairDelta ("Q1", v) s = applyQ1 (some v) s := by simp [specPairDelta]
        rw [hp]
      · by_cases h2 : k = "Q2"
        · subst h2
          rw [dictGet_cons_eq _ v rest (dictGet_eq_none _ rest hk),
            dictGet_cons_ne _ _ _ _ (by decide), dictGet_cons_ne _ _ _ _ (by decide),
            dictGet_cons_ne _ _ _ _ (by decide),
            dictGet_eq_none _ rest hk, applyQ2_none]
          have hp : specPairDelta ("Q2", v) s = applyQ2 (some v) s := by simp [specPairDelta]
          rw [hp, applyQ_comm12]
        · by_cases h3 : k = "Q3"
          · subst h3
            rw [dictGet_cons_eq _ v rest (dictGet_eq_none _ rest hk),
              dictGet_cons_ne _ _ _ _ (by decide), dictGet_cons_ne _ _ _ _ (by decide),
              dictGet_cons_ne _ _ _ _ (by decide),
              dictGet_eq_none _ rest hk, applyQ3_none]
            have hp : specPairDelta ("Q3", v) s = applyQ3 (some v) s := by simp [specPairDelta]
            rw [hp, applyQ_comm13, applyQ_comm23]
          · by_cases h4 : k = "Q4"
            · subst h4
              rw [dictGet_cons_eq _ v rest (dictGet_eq_none _ rest hk),
                dictGet_cons_ne _ _ _ _ (by decide), dictGet_cons_ne _ _ _ _ (by decide),
                dictGet_cons_ne _ _ _ _ (by decide),
                dictGet_eq_none _ rest hk, applyQ4_none]
              have hp : specPairDelta ("Q4", v) s = applyQ4 (some v) s := by simp [specPairDelta]
              rw [hp, applyQ_comm14, applyQ_comm24, applyQ_comm34]
            · have hp : specPairDelta (k, v) s = s := by simp [specPairDelta, h1, h2, h3, h4]
              rw [dictGet_cons_ne _ _ _ _ h1, dictGet_cons_ne _ _ _ _ h2,
                dictGet_cons_ne _ _ _ _ h3, dictGet_cons_ne _ _ _ _ h4, hp]

theorem specScore_eq (answers : List (String × Nat))
    (h : (answers.map Prod.fst).Nodup) : specScore answers = finalScore answers := by
  rw [specScore, specFold_eq answers initScore h]; rfl

theorem step_start (s : Session) :
    step s Event.start =
      (initialSession, [Effect.sendGreeting, Effect.dbUpsertUser, Effect.dbTouch]) := rfl

theorem step_startQuiz (s : Session) :
    step s Event.startQuiz = ({ s with answers := [] }, [Effect.sendQuestion 1]) := rfl

theorem step_q1 (s : Session) (c : Nat) (h1 : 1 ≤ c) (h4 : c ≤ 4) :
    step s (Event.q 1 c) =
      ({ s with answers := s.answers ++ [("Q1", c)] }, [Effect.sendQuestion 2]) := by
  simp [step, h1, h4]

theorem step_q2 (s : Session) (c : Nat) (h1 : 1 ≤ c) (h4 : c ≤ 4) :
    step s (Event.q 2 c) =
      ({ s with answers := s.answers ++ [("Q2", c)] }, [Effect.sendQuestion 3]) := by
  simp [step, h1, h4]

theorem step_q3 (s : Session) (c : Nat) (h1 : 1 ≤ c) (h4 : c ≤ 4) :
    step s (Event.q 3 c) =
      ({ s with answers := s.answers ++ [("Q3", c)] }, [Effect.sendQuestion 4]) := by
  simp [step, h1, h4]

theorem step_q4 (s : Session) (c : Nat) (h1 : 1 ≤ c) (h4 : c ≤ 4) :
    step s (Event.q 4 c) =
      ({ s with answers := s.answers ++ [("Q4", c)],
                result := some (compute_recommendation (s.answers ++ [("Q4", c)])) },
       [Effect.sendAck,
        Effect.dbAddSubmission (compute_recommendation (s.answers ++ [("Q4", c)]))
          (s.answers ++ [("Q4", c)]),
        Effect.dbTouch,
        Effect.sendResult (compute_recommendation (s.answers ++ [("Q4", c)])),
        Effect.handlerError]) := by
  simp [step, h1, h4]

/-- No single event can turn `awaiting_contact` on: `send_contact_request`,
the only writer of a true value, is unreachable (the `NameError` in
`send_promo_code` aborts `handle_q4` first). A step from a non-awaiting
session also never emits a lead handoff. -/
theorem step_no_awaiting (s : Session) (e : Event) (h : s.awaiting_contact = false) :
    (step s e).1.awaiting_contact = false ∧ handoffCount (step s e).2 = 0 := by
  cases e with
  | start => simp [step, initialSession, handoffCount, Effect.isHandoff]
  | startQuiz => simp [step, h, handoffCount, Effect.isHandoff]
  | q n choice =>
      simp only [step]
      split_ifs <;> simp [h, handoffCount, Effect.isHandoff]
  | contact p => simp [step, h, handoffCount]
  | text t => simp [step, h, handoffCount]

/-- Extension of `step_no_awaiting` to whole event sequences. -/
theorem run_no_awaiting (es : List Event) (s : Session) (h : s.awaiting_contact = false) :
    (run s es).1.awaiting_contact = false ∧ handoffCount (run s es).2 = 0 := by
  induction es generalizing s with
  | nil => simpa [run, handoffCount]
  | cons e es ih =>
      have hs := step_no_awaiting s e h
      have hr := ih (step s e).1 hs.1
      simp only [run, handoffCount, List.filter_append, List.length_append]
      refine ⟨hr.1, ?_⟩
      have h1 : handoffCount (step s e).2 = 0 := hs.2
      have h2 : handoffCount (run (step s e).1 es).2 = 0 := hr.2
      simp only [handoffCount] at h1 h2
      omega

/-! ## Claim theorems -/

/-- C1, counterexample: the claim says an option-selection event for Q2
arriving while the session is at Q1 (here: the state right after `/start`
followed by the start-quiz tap, with empty `answers`) is ignored with no
state change and no outbound message. In the code `handle_q2` has no state
guard: the event appends `("Q2", 1)` to `answers` and shows question 3. -/
theorem c1_counterexample :
    (step (run initialSession [Event.start, Event.startQuiz]).1 (Event.q 2 1)).1.answers
        = [("Q2", 1)] ∧
    (run initialSession [Event.start, Event.startQuiz]).1.answers = [] ∧
    (step (run initialSession [Event.start, Event.startQuiz]).1 (Event.q 2 1)).2 ≠ [] := by
  decide

/-- C1, amended: the ignore-without-side-effects guarantee holds only for
the guarded events — a contact-share or free text while `awaiting_contact`
is false, a free text with fewer than 7 digits while awaiting, and a
callback whose question number or option index is outside 1..4 (no handler
pattern matches) — each is a strict no-op: same session, no collaborator
call. Question-option callbacks with in-range data are processed
unconditionally, whatever the session state. -/
theorem c1_amended (s : Session) (p t : String) (n choice : Nat) :
    (s.awaiting_contact = false →
      step s (Event.contact p) = (s, []) ∧ step s (Event.text t) = (s, [])) ∧
    (s.awaiting_contact = true → digitCount (pyStrip t) < 7 →
      step s (Event.text t) = (s, [])) ∧
    (¬ (1 ≤ choice ∧ choice ≤ 4) → step s (Event.q n choice) = (s, [])) ∧
    (¬ (1 ≤ n ∧ n ≤ 4) → step s (Event.q n choice) = (s, [])) := by
  refine ⟨fun h => ⟨by simp [step, h], by simp [step, h]⟩, fun h h7 => ?_,
    fun h => ?_, fun h => ?_⟩
  · simp [step, h, Nat.not_le.mpr h7]
  · simp [step, h]
  · have hn1 : n ≠ 1 := by omega
    have hn2 : n ≠ 2 := by omega
    have hn3 : n ≠ 3 := by omega
    have hn4 : n ≠ 4 := by omega
    simp [step, hn1, hn2, hn3, hn4]

/-- C1 witness: the amended no-ops at concrete inputs — a contact share and
a plain text against a fresh session, a short text against an awaiting
session, and a callback with option index 7. -/
theorem c1_amended_witness :
    step initialSession (Event.contact "+79991234567") = (initialSession, []) ∧
    step initialSession (Event.text "привет") = (initialSession, []) ∧
    step (Session.mk [] none true false) (Event.text "ок") =
      (Session.mk [] none true false, []) ∧
    step initialSession (Event.q 2 7) = (initialSession, []) := by
  have h1 := c1_amended initialSession "+79991234567" "привет" 2 7
  have h2 := c1_amended (Session.mk [] none true false) "+79991234567" "ок" 2 7
  exact ⟨(h1.1 rfl).1, (h1.1 rfl).2, h2.2.1 rfl (by decide), h1.2.2.1 (by decide)⟩

/-- C2, counterexample: on the duplicate-key list [(Q1,3),(Q1,4)] the spec's
per-pair summation gives FLOUS 2 and JUNGLE 2 (tie broken toward the
earlier-declared FLOUS), but the code's dict comprehension keeps only the
last Q1 pair, scoring JUNGLE 2 alone, so `compute_recommendation` returns
JUNGLE — not the item selected by summing every pair in the sequence. -/
theorem c2_counterexample :
    compute_recommendation [("Q1", 3), ("Q1", 4)] = "JUNGLE" ∧
    recommend_specModel [("Q1", 3), ("Q1", 4)] = "FLOUS" ∧
    compute_recommendation [("Q1", 3), ("Q1", 4)] ≠
      recommend_specModel [("Q1", 3), ("Q1", 4)] := by
  decide

/-- C2, amended: `compute_recommendation` scores the answers through a dict
keyed by question-id, so for each question-id only the LAST pair with that
id contributes its weight deltas; on every answers sequence whose
question-ids are pairwise distinct (any order, any length, unknown ids
ignored) it coincides with the spec's per-pair summation. -/
theorem c2_amended (answers : List (String × Nat))
    (h : (answers.map Prod.fst).Nodup) :
    compute_recommendation answers = recommend_specModel answers := by
  unfold compute_recommendation recommend_specModel
  rw [specScore_eq answers h]

/-- C2 witness: a duplicate-free two-answer list, out of question order. -/
theorem c2_amended_witness :
    ([("Q3", 2), ("Q1", 1)].map Prod.fst).Nodup ∧
    compute_recommendation [("Q3", 2), ("Q1", 1)] =
      recommend_specModel [("Q3", 2), ("Q1", 1)] :=
  ⟨by decide, c2_amended [("Q3", 2), ("Q1", 1)] (by decide)⟩

/-- C3, counterexample: the claim's invariant "result is set iff answers has
exactly 4 entries" fails on a reachable state: a lone q4 callback from the
initial state (handle_q4 has no state guard) appends one answer and stores a
recommendation, leaving answers length 1 with result set. -/
theorem c3_counterexample :
    (run initialSession [Event.q 4 1]).1.answers.length = 1 ∧
    (run initialSession [Event.q 4 1]).1.result.isSome = true := by
  decide

/-- C3, amended: along the intended flow — `/start`, the start-quiz tap,
then Q1..Q4 each answered exactly once in order with a declared option
index — every intermediate state satisfies the invariant: answers length is
at most 4 and the result is set exactly when answers has 4 entries (so the
result is set once, by the 4th answer, and no event of the flow follows to
mutate it). Outside this flow the handlers do not guard state and the
invariant can be violated (see the counterexample). -/
theorem c3_amended (a b c d k : Nat)
    (ha : 1 ≤ a ∧ a ≤ 4) (hb : 1 ≤ b ∧ b ≤ 4) (hc : 1 ≤ c ∧ c ≤ 4) (hd : 1 ≤ d ∧ d ≤ 4) :
    (run initialSession (([Event.start, Event.startQuiz, Event.q 1 a, Event.q 2 b,
        Event.q 3 c, Event.q 4 d]).take k)).1.answers.length ≤ 4 ∧
    ((run initialSession (([Event.start, Event.startQuiz, Event.q 1 a, Event.q 2 b,
        Event.q 3 c, Event.q 4 d]).take k)).1.result.isSome ↔
      (run initialSession (([Event.start, Event.startQuiz, Event.q 1 a, Event.q 2 b,
        Event.q 3 c, Event.q 4 d]).take k)).1.answers.length = 4) := by
  rcases k with _ | _ | _ | _ | _ | _ | k <;>
    simp [run, List.take, step_start, step_startQuiz, initialSession,
      step_q1 _ _ ha.1 ha.2, step_q2 _ _ hb.1 hb.2, step_q3 _ _ hc.1 hc.2,
      step_q4 _ _ hd.1 hd.2]

/-- C3 witness: the full intended flow with choices 1, 2, 3, 4. -/
theorem c3_amended_witness :
    (run initialSession (([Event.start, Event.startQuiz, Event.q 1 1, Event.q 2 2,
        Event.q 3 3, Event.q 4 4]).take 6)).1.answers.length ≤ 4 ∧
    ((run initialSession (([Event.start, Event.startQuiz, Event.q 1 1, Event.q 2 2,
        Event.q 3 3, Event.q 4 4]).take 6)).1.result.isSome ↔
      (run initialSession (([Event.start, Event.startQuiz, Event.q 1 1, Event.q 2 2,
        Event.q 3 3, Event.q 4 4]).take 6)).1.answers.length = 4) :=
  c3_amended 1 2 3 4 6 (by decide) (by decide) (by decide) (by decide)

/-- C4, counterexample: a phone-like free text (11 digits) arriving while
`awaiting_contact` is true IS accepted — `contact_received` becomes true and
the lead is forwarded to the manager — yet `on_phone_text` makes no
`update_user_phone` call: the stored phone is not updated on this path. -/
theorem c4_counterexample :
    (step (Session.mk [("Q4", 1)] (some "CLOUD") true false)
        (Event.text "мой номер 89991234567")).1.contact_received = true ∧
    handoffCount (step (Session.mk [("Q4", 1)] (some "CLOUD") true false)
        (Event.text "мой номер 89991234567")).2 = 1 ∧
    ((step (Session.mk [("Q4", 1)] (some "CLOUD") true false)
        (Event.text "мой номер 89991234567")).2.filter Effect.isUpdatePhone) = [] := by
  decide

/-- C4, amended: only the contact-share path persists the phone. While
`awaiting_contact` is true, a contact-shared event makes the
`update_user_phone` call, but a free-text event never does — whether or not
it qualifies as phone-like and is accepted. -/
theorem c4_amended (s : Session) (p t : String) (h : s.awaiting_contact = true) :
    Effect.dbUpdatePhone p ∈ (step s (Event.contact p)).2 ∧
    ((step s (Event.text t)).2.filter Effect.isUpdatePhone) = [] := by
  constructor
  · simp [step, h]
  · by_cases h7 : 7 ≤ digitCount (pyStrip t)
    · simp [step, h, h7, Effect.isUpdatePhone]
    · simp [step, h, h7]

/-- C4 witness: a session in the contact window, a shared contact and a
typed phone number. -/
theorem c4_amended_witness :
    Effect.dbUpdatePhone "+79991234567" ∈
      (step (Session.mk [] (some "CLOUD") true false)
        (Event.contact "+79991234567")).2 ∧
    ((step (Session.mk [] (some "CLOUD") true false)
        (Event.text "89991234567")).2.filter Effect.isUpdatePhone) = [] :=
  c4_amended (Session.mk [] (some "CLOUD") true false) "+79991234567" "89991234567" rfl

/-- C5 (code bug): no session can ever reach DONE, so the "exactly one Lead
Record handoff" guarantee is broken in the zero direction. The only writer
of `awaiting_contact := true` is `send_contact_request`, which `handle_q4`
reaches only after `send_promo_code`; `send_promo_code`'s first statement
evaluates `MESSAGE_DELAY_SECONDS`, a module variable never defined in
bot.py, raising `NameError` and aborting the handler. Hence (i) in every
reachable state `awaiting_contact` is false and no trace ever produces a
manager handoff, and (ii) concretely, a full quiz run followed by a shared
contact ends with the result set but the contact ignored: `contact_received`
stays false and zero handoffs are emitted, where the claim requires exactly
one. -/
theorem c5_code_bug :
    (∀ es : List Event, (run initialSession es).1.awaiting_contact = false ∧
      handoffCount (run initialSession es).2 = 0) ∧
    ((run initialSession [Event.start, Event.startQuiz, Event.q 1 1, Event.q 2 1,
        Event.q 3 1, Event.q 4 1, Event.contact "+79991234567"]).1.result.isSome = true ∧
     (run initialSession [Event.start, Event.startQuiz, Event.q 1 1, Event.q 2 1,
        Event.q 3 1, Event.q 4 1, Event.contact "+79991234567"]).1.contact_received = false ∧
     handoffCount (run initialSession [Event.start, Event.startQuiz, Event.q 1 1,
        Event.q 2 1, Event.q 3 1, Event.q 4 1, Event.contact "+79991234567"]).2 = 0) := by
  exact ⟨fun es => run_no_awaiting es initialSession rfl, by decide, by decide, by decide⟩

/-- C6: for a free-text event arriving while `awaiting_contact` is true, if
the stripped text contains at least 7 decimal digits it is accepted —
`contact_received` becomes true, `awaiting_contact` becomes false (the DONE
state), the acceptance is acknowledged and the lead forwarded — and if it
contains fewer than 7 it is silently ignored, session unchanged, no
collaborator call. -/
theorem c6_phone_text_guard (s : Session) (t : String) (h : s.awaiting_contact = true) :
    (7 ≤ digitCount (pyStrip t) →
      step s (Event.text t) =
        ({ s with contact_received := true, awaiting_contact := false },
         [Effect.sendContactAck, Effect.managerHandoff (pyStrip t) s.answers s.result])) ∧
    (digitCount (pyStrip t) < 7 → step s (Event.text t) = (s, [])) := by
  constructor
  · intro h7
    simp [step, h, h7]
  · intro h7
    simp [step, h, Nat.not_le.mpr h7]

/-- C6 witness: the spec's two scenario strings against an awaiting session:
the 11-digit phone text is accepted and reaches DONE, the digit-free reply
is ignored. -/
theorem c6_witness :
    step (Session.mk [] (some "CLOUD") true false) (Event.text "мой номер 89991234567") =
      (Session.mk [] (some "CLOUD") false true,
       [Effect.sendContactAck,
        Effect.managerHandoff "мой номер 89991234567" [] (some "CLOUD")]) ∧
    step (Session.mk [] (some "CLOUD") true false) (Event.text "да, супер!") =
      (Session.mk [] (some "CLOUD") true false, []) := by
  have h1 := c6_phone_text_guard (Session.mk [] (some "CLOUD") true false)
    "мой номер 89991234567" rfl
  have h2 := c6_phone_text_guard (Session.mk [] (some "CLOUD") true false)
    "да, супер!" rfl
  exact ⟨by rw [h1.1 (by decide)]; decide, h2.2 (by decide)⟩

/-- C7: the item returned by `compute_recommendation` carries a maximal
accumulated score, and every catalog item declared strictly earlier in the
CLOUD, GOCCI, FLOUS, JUNGLE order than the returned item has a strictly
smaller score — among the items sharing the maximum, the first-declared one
is returned. -/
theorem c7_tie_break (answers : List (String × Nat)) (m : String)
    (hm : m ∈ catalogOrder) :
    scoreOf (finalScore answers) m ≤
      scoreOf (finalScore answers) (compute_recommendation answers) ∧
    (catalogOrder.indexOf m < catalogOrder.indexOf (compute_recommendation answers) →
      scoreOf (finalScore answers) m <
        scoreOf (finalScore answers) (compute_recommendation answers)) := by
  have hrec : compute_recommendation answers =
      pyMax (fun m => (scoreOf (finalScore answers) m,
        -((catalogOrder.indexOf m : Nat) : Int))) catalogOrder := rfl
  fin_cases hm <;>
  · rw [hrec]
    simp only [pyMax, catalogOrder, List.foldl_cons, List.foldl_nil, keyGt,
      scoreOf_cloud, scoreOf_gocci, scoreOf_flous, scoreOf_jungle]
    split_ifs <;>
      simp_all [scoreOf_cloud, scoreOf_gocci, scoreOf_flous, scoreOf_jungle,
        indexOf_cloud, indexOf_gocci, indexOf_flous, indexOf_jungle, catalogOrder] <;>
      omega

/-- C7 witness: GOCCI against the empty answers list — all scores are 0, the
tie-break returns the first-declared CLOUD, and GOCCI (declared later) need
not have a smaller score. -/
theorem c7_tie_break_witness :
    scoreOf (finalScore []) "GOCCI" ≤
      scoreOf (finalScore []) (compute_recommendation []) ∧
    (catalogOrder.indexOf "GOCCI" < catalogOrder.indexOf (compute_recommendation []) →
      scoreOf (finalScore []) "GOCCI" <
        scoreOf (finalScore []) (compute_recommendation [])) :=
  c7_tie_break [] "GOCCI" (by decide)

/-- C8: the reference scenario — answers (Q1,1),(Q2,1),(Q3,3),(Q4,1) yield
CLOUD with accumulated score 1+2+2+3 = 8, strictly above every other
catalog item's score. -/
theorem c8_reference_scenario :
    compute_recommendation [("Q1", 1), ("Q2", 1), ("Q3", 3), ("Q4", 1)] = "CLOUD" ∧
    scoreOf (finalScore [("Q1", 1), ("Q2", 1), ("Q3", 3), ("Q4", 1)]) "CLOUD"
      = 1 + 2 + 2 + 3 ∧
    scoreOf (finalScore [("Q1", 1), ("Q2", 1), ("Q3", 3), ("Q4", 1)]) "GOCCI" <
      scoreOf (finalScore [("Q1", 1), ("Q2", 1), ("Q3", 3), ("Q4", 1)]) "CLOUD" ∧
    scoreOf (finalScore [("Q1", 1), ("Q2", 1), ("Q3", 3), ("Q4", 1)]) "FLOUS" <
      scoreOf (finalScore [("Q1", 1), ("Q2", 1), ("Q3", 3), ("Q4", 1)]) "CLOUD" ∧
    scoreOf (finalScore [("Q1", 1), ("Q2", 1), ("Q3", 3), ("Q4", 1)]) "JUNGLE" <
      scoreOf (finalScore [("Q1", 1), ("Q2", 1), ("Q3", 3), ("Q4", 1)]) "CLOUD" := by
  decide

/-- C9: `compute_recommendation` is a total, side-effect-free function of
its input — it is defined on every list of (question-id, option-index)
pairs and always returns one of the four catalog identifiers, and two calls
on equal sequences return equal results. -/
theorem c9_deterministic_total :
    (∀ answers : List (String × Nat), compute_recommendation answers ∈ catalogOrder) ∧
    (∀ a b : List (String × Nat), a = b →
      compute_recommendation a = compute_recommendation b) := by
  constructor
  · intro answers
    show pyMax _ catalogOrder ∈ catalogOrder
    simp only [pyMax, catalogOrder, List.foldl_cons, List.foldl_nil]
    split_ifs <;> simp
  · intro a b h
    rw [h]

/-- C9 witness: totality and repeat-call agreement at a concrete short
answers list. -/
theorem c9_witness :
    compute_recommendation [("Q1", 1)] ∈ catalogOrder ∧
    compute_recommendation [("Q1", 1)] = compute_recommendation [("Q1", 1)] :=
  ⟨c9_deterministic_total.1 [("Q1", 1)],
   c9_deterministic_total.2 [("Q1", 1)] [("Q1", 1)] rfl⟩

/-- C10: the start-quiz callback resets `answers` to the empty list and
leaves every other field of the session unchanged — so a session already in
the contact window keeps `awaiting_contact` true — while the `/start`
command clears the whole session back to the zero value. -/
theorem c10_start_quiz_frame (s : Session) :
    (step s Event.startQuiz).1 = { s with answers := [] } ∧
    (step s Event.startQuiz).1.result = s.result ∧
    (step s Event.startQuiz).1.awaiting_contact = s.awaiting_contact ∧
    (step s Event.startQuiz).1.contact_received = s.contact_received ∧
    (step s Event.start).1 = initialSession := by
  simp [step]

end Fils
